import Mathlib

/-!
Verification development for the daily-digest pipeline
(`src/daily_digest.py`): a shallow embedding of the run-history
aggregation engine, the streak computation and the external link
builder, together with theorems settling the specification claims.

Modelling conventions:
* UTC instants are `Int` (seconds); local-day boundaries are modelled as
  consecutive fixed-length windows of `86400` seconds (the timezone
  conversion in the source is a monotone bijection, so only the tiling
  of consecutive day windows matters to the claims).
* Python strings are `String` / `List Char`; `datetime.strftime` and the
  `str.replace` / `re.sub` calls are embedded character by character.
* SQL `LIKE` patterns are embedded with their real semantics
  (`%` matches any sequence, `_` matches any single character).
* Fallible repository access (a day query that may raise) is modelled
  with `Except Unit`; the embedded scan propagates errors exactly where
  the source has no handler.
-/

set_option maxRecDepth 4096

/-- Zero-pad a natural number to two digits, as Python `%H`/`%M`/`%S`/`%m`/`%d` do. -/
def pad2 (n : Nat) : String :=
  if n < 10 then "0" ++ toString n else toString n

/-- Zero-pad a natural number to four digits, as Python `%Y` does. -/
def pad4 (n : Nat) : String :=
  if n < 10 then "000" ++ toString n
  else if n < 100 then "00" ++ toString n
  else if n < 1000 then "0" ++ toString n
  else toString n

/-- Does `f` accept some suffix of the list (the list itself included)? -/
def anySuffix (f : List Char → Bool) : List Char → Bool
  | [] => f []
  | c :: tl => f (c :: tl) || anySuffix f tl

/-- SQL `LIKE` matching over character lists: `%` matches any sequence of
characters (so `'%' :: ps` matches `s` when `ps` matches some suffix of
`s`), `_` matches exactly one character, anything else matches itself.
This is the semantics of the `.like(...)` filters in the source queries. -/
def likeMatch : List Char → List Char → Bool
  | [], s => s.isEmpty
  | '%' :: ps, s => anySuffix (likeMatch ps) s
  | '_' :: ps, s =>
    (match s with
     | [] => false
     | _ :: tl => likeMatch ps tl)
  | c :: ps, s =>
    (match s with
     | [] => false
     | d :: tl => c == d && likeMatch ps tl)

/-- Replace the first space of a string with a literal plus sign:
Python `s.replace(' ', '+', 1)`. -/
def replaceFirstSpace : List Char → List Char
  | [] => []
  | c :: cs => if c = ' ' then '+' :: cs else c :: replaceFirstSpace cs

/-- Replace every colon with the three characters `%3A`:
Python `s.replace(':', '%3A')`. -/
def encodeColons : List Char → List Char
  | [] => []
  | c :: cs =>
    if c = ':' then '%' :: '3' :: 'A' :: encodeColons cs
    else c :: encodeColons cs

/-- Replace every plus sign with the three characters `%2B`:
Python `s.replace('+', '%2B')`. -/
def encodePluses : List Char → List Char
  | [] => []
  | c :: cs =>
    if c = '+' then '%' :: '2' :: 'B' :: encodePluses cs
    else c :: encodePluses cs

/-- Does a character list consist of exactly four decimal digits?
The `\d{4}` alternative of the timezone-offset regex. -/
def body4 (l : List Char) : Bool :=
  match l with
  | [a, b, c, d] => a.isDigit && b.isDigit && c.isDigit && d.isDigit
  | _ => false

/-- Does a character list have the shape `dd%3Add`?
The `\d{2}%3A\d{2}` alternative of the timezone-offset regex. -/
def body7 (l : List Char) : Bool :=
  match l with
  | [a, b, p, t, u, c, d] =>
    a.isDigit && b.isDigit && p = '%' && t = '3' && u = 'A' && c.isDigit && d.isDigit
  | _ => false

/-- Embedding of `re.sub(r'<sign>(\d{4}|\d{2}%3A\d{2})$', r'<enc>\1', s)`:
if the string ends in the sign character followed by a four-digit or
`dd%3Add` offset body, the sign character is replaced by `enc`; otherwise
the string is unchanged.  The pattern is anchored at the end, so there is
at most one match, and the `\d{4}` alternative is tried first as in the
regex engine. -/
def subTzSign (sign : Char) (enc : List Char) (s : List Char) : List Char :=
  let n := s.length
  if (s.drop (n - 5)).head? = some sign && body4 (s.drop (n - 4)) then
    s.take (n - 5) ++ enc ++ s.drop (n - 4)
  else if (s.drop (n - 8)).head? = some sign && body7 (s.drop (n - 7)) then
    s.take (n - 8) ++ enc ++ s.drop (n - 7)
  else s

/-- A timezone-aware wall-clock timestamp, the shape of the Airflow
`execution_date` values fed to the link builder.  `offNeg` is the sign of
the UTC offset (`true` for a negative offset), `offHH`/`offMM` its
hour/minute components. -/
structure Timestamp where
  year : Nat
  month : Nat
  day : Nat
  hour : Nat
  minute : Nat
  second : Nat
  offNeg : Bool
  offHH : Nat
  offMM : Nat
deriving DecidableEq, Repr

/-- Python `execution_date.strftime('%Y-%m-%d %H:%M:%S%z')`.  Note `%z`
renders the UTC offset as `±HHMM` with no colon (CPython behaviour). -/
def strftimeZ (t : Timestamp) : String :=
  pad4 t.year ++ "-" ++ pad2 t.month ++ "-" ++ pad2 t.day ++ " " ++
  pad2 t.hour ++ ":" ++ pad2 t.minute ++ ":" ++ pad2 t.second ++
  (if t.offNeg then "-" else "+") ++ pad2 t.offHH ++ pad2 t.offMM

/-- The encoded `execution_date` string built by `format_airflow_dag_url`:
strftime, then the space becomes `+`, colons become `%3A`, and a trailing
offset sign becomes `%2B` / `%2D`. -/
def encodeExecDate (t : Timestamp) : String :=
  let s0 := (strftimeZ t).data
  let s1 := replaceFirstSpace s0
  let s2 := encodeColons s1
  let s3 := subTzSign '+' ['%', '2', 'B'] s2
  let s4 := subTzSign '-' ['%', '2', 'D'] s3
  String.mk s4

/-- The encoded run id built by `format_airflow_dag_url`:
`run_id.replace(':', '%3A').replace('+', '%2B')`. -/
def encodeRunId (r : String) : String :=
  String.mk (encodePluses (encodeColons r.data))

/-- Python truthiness of an optional string: `None` and the empty string
are falsy. -/
def strFalsy (s : Option String) : Bool :=
  match s with
  | none => true
  | some v => v = ""

/-- Embedding of `format_airflow_dag_url(airflow_url, dag_id,
execution_date, run_id)`.  Returns `none` when any of `airflow_url`,
`execution_date` or `run_id` is falsy (`if not airflow_url or not
execution_date or not run_id: return None`); otherwise assembles the grid
URL.  The body raises no exception, so the `except` branch that would
also return `None` is unreachable in the embedding. -/
def format_airflow_dag_url (airflow_url : Option String) (dag_id : String)
    (execution_date : Option Timestamp) (run_id : Option String) : Option String :=
  if strFalsy airflow_url || execution_date.isNone || strFalsy run_id then none
  else
    match airflow_url, execution_date, run_id with
    | some au, some ed, some rid =>
      some (au ++ "/dags/" ++ dag_id ++ "/grid?execution_date=" ++ encodeExecDate ed
            ++ "&tab=graph&dag_run_id=" ++ encodeRunId rid)
    | _, _, _ => none




/-- The run/task state enum.  `other` stands for every Airflow state that
is neither SUCCESS, FAILED nor RUNNING (queued, skipped, upstream_failed,
up_for_retry, ...). -/
inductive RunState where
  | success
  | failed
  | running
  | other
deriving DecidableEq, Repr

/-- One `DagRun` row: a single execution of a named DAG.  `start_date` is
the UTC start instant (nullable), `execution_date` the logical timestamp
used for deep links (nullable). -/
structure RunRecord where
  dag_id : String
  run_id : String
  state : RunState
  start_date : Option Int
  execution_date : Option Timestamp
deriving DecidableEq, Repr

/-- One `TaskInstance` row, keyed to its parent run by
`(dag_id, run_id)`. -/
structure TaskRecord where
  dag_id : String
  run_id : String
  task_id : String
  state : RunState
  start_date : Option Int
deriving DecidableEq, Repr

/-- One entry of `DagBag().dags`: a DAG definition with its declared
owner (from `dag.owner` or `default_args['owner']`, `none` when neither
is set). -/
structure DagDef where
  dag_id : String
  owner : Option String
deriving DecidableEq, Repr

/-- A consistent read of the run-history store: every `DagRun` and
`TaskInstance` row visible to the queries of one invocation. -/
structure Snapshot where
  runs : List RunRecord
  tasks : List TaskRecord
deriving DecidableEq, Repr

/-- The `~DagRun.dag_id.like('%test%')`, `~DagRun.dag_id.like('%example%')`
and `DagRun.dag_id != 'daily_digest'` exclusion filters shared by the main
window query and the per-day streak queries. -/
def excludedDag (d : String) : Bool :=
  likeMatch "%test%".data d.data || likeMatch "%example%".data d.data ||
    d = "daily_digest"

/-- The main window query (`session.query(DagRun).filter(or_(...), ...)`):
keep runs that started inside `[window_start, window_end]`, or are in
state RUNNING with a start no later than `window_end`; drop excluded dag
ids.  A NULL `start_date` fails both SQL comparisons, hence both
disjuncts. -/
def runSelected (ws we : Int) (r : RunRecord) : Bool :=
  (match r.start_date with
   | none => false
   | some t => (decide (ws ≤ t) && decide (t ≤ we)) ||
       (r.state == RunState.running && decide (t ≤ we))) &&
  !excludedDag r.dag_id

/-- `dag_runs`: the rows returned by the main window query, in store
order. -/
def fetchWindowRuns (ws we : Int) (runs : List RunRecord) : List RunRecord :=
  runs.filter (runSelected ws we)

/-- The ownership filter (`included_dag_ids`): the always-included id
`'example_important_dag'` plus every DAG whose declared owner is
`'operations-analytics'` or `'product-analytics'`.  Recomputed verbatim
for every streak-scan day, exactly as the source re-runs the same loop. -/
def includedIds (defs : List DagDef) : List String :=
  "example_important_dag" ::
    (defs.filter (fun d =>
      d.owner == some "operations-analytics" ||
        d.owner == some "product-analytics")).map (fun d => d.dag_id)

/-- The hardcoded `task_level_dags` list of fan-out DAG ids. -/
def task_level_dags : List String :=
  ["common_schedules", "example_important_dag", "product_analytics_transform",
   "product_analytics_transform_weekly", "example_inventory_management"]

/-- Local-day length in seconds: local-day boundaries are modelled as
consecutive fixed-length UTC windows (the pendulum local-to-UTC
conversion is monotone, so only the tiling of consecutive windows
matters). -/
def daySeconds : Int := 86400

/-- UTC start of the day `off` days before the day starting at `S`:
`current_date.subtract(days=day_offset)` converted to UTC. -/
def dayWindowStart (S : Int) (off : Nat) : Int :=
  S - off * daySeconds

/-- The per-day streak query: does day `[d, d + daySeconds)` hold a FAILED
monitored run (owner-filtered, exclusion patterns applied) or a FAILED
fan-out task whose id matches `'run_dbt_task_for_%'` on a fan-out run that
started that day?  This is the body of one iteration of the backward
scan. -/
def dayHasFailure (snap : Snapshot) (defs : List DagDef) (d : Int) : Bool :=
  let de := d + daySeconds
  let failed_runs := snap.runs.filter (fun r =>
    (match r.start_date with
     | none => false
     | some t => decide (d ≤ t) && decide (t < de)) &&
    r.state == RunState.failed && !excludedDag r.dag_id)
  let incl := includedIds defs
  let failed_runs_filtered := failed_runs.filter (fun r => incl.contains r.dag_id)
  let failed_tasks := snap.tasks.filter (fun ti =>
    (snap.runs.any (fun r =>
      r.dag_id == ti.dag_id && r.run_id == ti.run_id &&
      (match r.start_date with
       | none => false
       | some t => decide (d ≤ t) && decide (t < de)))) &&
    task_level_dags.contains ti.dag_id &&
    ti.state == RunState.failed &&
    likeMatch "run_dbt_task_for_%".data ti.task_id.data)
  !failed_runs_filtered.isEmpty || !failed_tasks.isEmpty

/-- The backward streak loop (`for day_offset in range(max_streak_check)`):
starting at offset `off` with `fuel` iterations left, count one per
failure-free day and stop at the first day with a failure.  The source
starts at `off = 0` — the current day itself — with `fuel = 365`. -/
def streakFrom (snap : Snapshot) (defs : List DagDef) (S : Int) :
    Nat → Nat → Nat
  | 0, _ => 0
  | fuel + 1, off =>
    if dayHasFailure snap defs (dayWindowStart S off) then 0
    else 1 + streakFrom snap defs S fuel (off + 1)

/-- `streak_days`: the streak computed by one invocation whose local day
starts at UTC instant `S`. -/
def streak_days (snap : Snapshot) (defs : List DagDef) (S : Int) : Nat :=
  streakFrom snap defs S 365 0

/-- The backward streak loop over a fallible day query, as the source
executes it: `q off` is the result of the day-`off` repository query
(`Except.error` when the query raises).  The loop body has no exception
handler, so an error propagates and aborts the whole invocation — the
accumulated count is lost. -/
def streakScanE (q : Nat → Except Unit Bool) : Nat → Nat → Nat → Except Unit Nat
  | 0, _, acc => Except.ok acc
  | fuel + 1, off, acc =>
    match q off with
    | Except.error e => Except.error e
    | Except.ok true => Except.ok acc
    | Except.ok false => streakScanE q fuel (off + 1) (acc + 1)

/-- The resolved Airflow base URL: the `airflow_url` Variable when set and
non-empty, otherwise the hardcoded default
(`if not airflow_url: airflow_url = 'https://your-airflow-instance.com'`). -/
def resolveAirflowUrl (v : Option String) : String :=
  match v with
  | none => "https://your-airflow-instance.com"
  | some u => if u = "" then "https://your-airflow-instance.com" else u

/-- One dict appended to `success` / `failed` / `running`.  The
`start_time` display string is modelled as `Option Int`: `none` stands
for the literal `'N/A'` and `some t` for the local-time rendering
(`'%I:%M %p'`) of instant `t`; no claim depends on the rendered digits,
only on whether the sentinel or a real time is shown. -/
structure DagInfo where
  dag_id : String
  actual_dag_id : String
  start_time : Option Int
  start_date : Option Int
  run_id : String
  execution_date : Option Timestamp
  dag_url : Option String
deriving DecidableEq, Repr

/-- `min_datetime = pendulum.datetime(1900, 1, 1)` as a Unix instant: the
sentinel substituted for missing `start_date` values in the sort key. -/
def min_datetime : Int := -2208988800

/-- The Python sort key tuple comparison:
`(x['start_date'] or min_datetime, x['dag_id'])` compared
lexicographically, timestamps first, labels (code-point order) second. -/
def sortLE (a b : DagInfo) : Bool :=
  let ka := a.start_date.getD min_datetime
  let kb := b.start_date.getD min_datetime
  decide (ka < kb) || (ka == kb && decide (a.dag_id ≤ b.dag_id))

/-- Stable insertion of one entry into a sorted bucket: an element is
placed before the first existing element it compares `sortLE` to. -/
def insertEntry (a : DagInfo) : List DagInfo → List DagInfo
  | [] => [a]
  | b :: bs => if sortLE a b then a :: b :: bs else b :: insertEntry a bs

/-- `list.sort(key=...)`: a stable sort by `sortLE`.  Python uses a
stable merge sort; any two stable sorts by the same total preorder agree
on every input, so the stable insertion sort below is extensionally the
same function. -/
def sortBucket : List DagInfo → List DagInfo
  | [] => []
  | a :: rest => insertEntry a (sortBucket rest)

/-- The guarded full-link construction shared by both entry builders:
`format_airflow_dag_url(...) if airflow_url and dag_run.execution_date
and dag_run.run_id else None`. -/
def fullLinkOrNone (airflow_url : String) (r : RunRecord) : Option String :=
  if airflow_url ≠ "" && r.execution_date.isSome && r.run_id ≠ "" then
    format_airflow_dag_url (some airflow_url) r.dag_id r.execution_date (some r.run_id)
  else none

/-- The link actually stored on an entry: the full link when it was
built, else the job-level fallback `<base>/dags/<dag_id>/grid` when a
base URL exists (`if not dag_url and airflow_url`), else `None`. -/
def linkWithFallback (airflow_url : String) (r : RunRecord) : Option String :=
  match fullLinkOrNone airflow_url r with
  | some u => some u
  | none =>
    if airflow_url ≠ "" then some (airflow_url ++ "/dags/" ++ r.dag_id ++ "/grid")
    else none

/-- The dict built for one ordinary (non-fan-out) run: display label is
the dag id itself, the sort key is the run's own start, and the URL falls
back to `<base>/dags/<dag_id>/grid` when the full link comes back `None`
(`if not dag_url and airflow_url`). -/
def mkRunInfo (airflow_url : String) (r : RunRecord) : DagInfo :=
  let dag_url := linkWithFallback airflow_url r
  { dag_id := r.dag_id
    actual_dag_id := r.dag_id
    start_time := r.start_date
    start_date := r.start_date
    run_id := r.run_id
    execution_date := r.execution_date
    dag_url := dag_url }

/-- Python `s.replace(pat, rep)` for a non-empty pattern: every
non-overlapping occurrence of `pat` is replaced by `rep`, scanning left
to right.  (For an empty `pat` the source never calls it; the embedding
returns the string unchanged.) -/
def replaceSub (pat rep : List Char) : List Char → List Char
  | [] => []
  | c :: tl =>
    if pat ≠ [] && pat.isPrefixOf (c :: tl) then
      rep ++ replaceSub pat rep (tl.drop (pat.length - 1))
    else
      c :: replaceSub pat rep tl
termination_by s => s.length
decreasing_by
  · simp only [List.length_cons, List.length_drop]
    omega
  · simp only [List.length_cons]
    omega

/-- The dict built for one fan-out task: display label
`f"{dag_run.dag_id} - {project_name}"` with
`project_name = task_id.replace('run_dbt_task_for_', '')` (literal
substring removal), displayed start from the task's own `start_date`
(`'N/A'` when null), sort key `task_instance.start_date or
dag_run.start_date`, and the same URL fallback as ordinary runs. -/
def mkTaskInfo (airflow_url : String) (r : RunRecord) (ti : TaskRecord) : DagInfo :=
  let project_name :=
    String.mk (replaceSub "run_dbt_task_for_".data [] ti.task_id.data)
  let display_name := r.dag_id ++ " - " ++ project_name
  let dag_url := linkWithFallback airflow_url r
  { dag_id := display_name
    actual_dag_id := r.dag_id
    start_time := ti.start_date
    start_date := (match ti.start_date with | some t => some t | none => r.start_date)
    run_id := r.run_id
    execution_date := r.execution_date
    dag_url := dag_url }

/-- The task-level query for one fan-out run:
`session.query(TaskInstance).filter(dag_id == ..., run_id == ...,
task_id.like('run_dbt_task_for_%'))`. -/
def tasksForRun (snap : Snapshot) (r : RunRecord) : List TaskRecord :=
  snap.tasks.filter (fun ti =>
    ti.dag_id == r.dag_id && ti.run_id == r.run_id &&
      likeMatch "run_dbt_task_for_%".data ti.task_id.data)

/-- Is a state one of the three reported buckets?  The `if/elif` chain
appends only for SUCCESS, FAILED and RUNNING; every other state falls
through and the record is dropped. -/
def reportable (s : RunState) : Bool :=
  s == RunState.success || s == RunState.failed || s == RunState.running

/-- The three bucket contributions of one fan-out run: one entry per
matching task, routed by the task's state; tasks in unreported states and
runs with no matching tasks contribute nothing. -/
def taskBuckets (airflow_url : String) (snap : Snapshot) (r : RunRecord) :
    List DagInfo × List DagInfo × List DagInfo :=
  let ts := tasksForRun snap r
  ((ts.filter (fun ti => ti.state == RunState.success)).map (mkTaskInfo airflow_url r),
   (ts.filter (fun ti => ti.state == RunState.failed)).map (mkTaskInfo airflow_url r),
   (ts.filter (fun ti => ti.state == RunState.running)).map (mkTaskInfo airflow_url r))

/-- The status emojis of the source (`status_emoji`). -/
def attentionEmoji : String := "⚠️"

/-- The in-progress status emoji. -/
def inProgressEmoji : String := "🔄"

/-- The healthy status emoji. -/
def healthyEmoji : String := "✅"

/-- `if failed: ... elif running: ... else: ...` — Python truthiness of a
list is non-emptiness, so FAILED wins over RUNNING wins over SUCCESS. -/
def pickEmoji (failed running : List DagInfo) : String :=
  if !failed.isEmpty then attentionEmoji
  else if !running.isEmpty then inProgressEmoji
  else healthyEmoji

/-- The `stats` dict returned by `generate_morning_digest_stats` (the
`timestamp` field is presentation-only and carries no claim, so it is
omitted from the embedding). -/
structure Stats where
  status_emoji : String
  success_count : Nat
  failed_count : Nat
  running_count : Nat
  streak_days : Nat
  success_dags : List DagInfo
  failed_dags : List DagInfo
  running_dags : List DagInfo
deriving DecidableEq, Repr

/-- Embedding of `generate_morning_digest_stats`: resolve the base URL,
run the main window query over `[start_of_day_utc, now_utc]`, intersect
with the ownership filter, compute the streak by backward scan from the
current day, split the filtered runs into fan-out and ordinary runs,
build one entry per ordinary run and one per matching fan-out task,
bucket by state, sort each bucket by `(start_date-or-sentinel, dag_id)`,
and derive the overall status emoji. -/
def generate_morning_digest_stats (snap : Snapshot) (defs : List DagDef)
    (airflow_var : Option String) (startOfDay nowUtc : Int) : Stats :=
  let airflow_url := resolveAirflowUrl airflow_var
  let dag_runs0 := fetchWindowRuns startOfDay nowUtc snap.runs
  let incl := includedIds defs
  let dag_runs := dag_runs0.filter (fun r => incl.contains r.dag_id)
  let streak := streak_days snap defs startOfDay
  let task_level_runs := dag_runs.filter (fun r => task_level_dags.contains r.dag_id)
  let other_dag_runs := dag_runs.filter (fun r => !task_level_dags.contains r.dag_id)
  let success0 := (other_dag_runs.filter (fun r => r.state == RunState.success)).map (mkRunInfo airflow_url)
  let failed0 := (other_dag_runs.filter (fun r => r.state == RunState.failed)).map (mkRunInfo airflow_url)
  let running0 := (other_dag_runs.filter (fun r => r.state == RunState.running)).map (mkRunInfo airflow_url)
  let success1 := success0 ++ task_level_runs.flatMap (fun r => (taskBuckets airflow_url snap r).1)
  let failed1 := failed0 ++ task_level_runs.flatMap (fun r => (taskBuckets airflow_url snap r).2.1)
  let running1 := running0 ++ task_level_runs.flatMap (fun r => (taskBuckets airflow_url snap r).2.2)
  let success := sortBucket success1
  let failed := sortBucket failed1
  let running := sortBucket running1
  { status_emoji := pickEmoji failed running
    success_count := success.length
    failed_count := failed.length
    running_count := running.length
    streak_days := streak
    success_dags := success
    failed_dags := failed
    running_dags := running }

/-- Concrete repository contents used by the streak counterexample and
witness: one monitored DAG (`etl_sales`, owned by operations-analytics)
with a FAILED run two days before the invocation day. -/
def cDefs : List DagDef := [⟨"etl_sales", some "operations-analytics"⟩]

/-- The run-history snapshot for the streak scenario: a FAILED `etl_sales`
run that started in the day window two days back (offset 2 from an
invocation day starting at instant 0). -/
def cStreakSnap : Snapshot :=
  { runs := [⟨"etl_sales", "r1", RunState.failed, some (-172800), none⟩], tasks := [] }

/-- A bucket entry with no start time (displayed `'N/A'`, sort key falls
back to the 1900-01-01 sentinel). -/
def cEntryNoStart : DagInfo :=
  { dag_id := "alpha_job", actual_dag_id := "alpha_job", start_time := none,
    start_date := none, run_id := "rA", execution_date := none,
    dag_url := some "https://af/dags/alpha_job/grid" }

/-- A bucket entry that started at instant 0. -/
def cEntryWithStart : DagInfo :=
  { dag_id := "beta_job", actual_dag_id := "beta_job", start_time := some 0,
    start_date := some 0, run_id := "rB", execution_date := none,
    dag_url := some "https://af/dags/beta_job/grid" }

/-- The day-query oracle for the streak error scenario: day 0 answers
cleanly with no failure, every later day raises. -/
def cQuery : Nat → Except Unit Bool :=
  fun o => if o = 0 then Except.ok false else Except.error ()

/-- The timestamp of the spec's link-encoding example:
`2025-11-18 19:00:00+00:00`. -/
def cExampleTs : Timestamp := ⟨2025, 11, 18, 19, 0, 0, false, 0, 0⟩

/-- Definitions list for the fan-out scenarios: `common_schedules`
(a fan-out DAG) is monitored via its owner. -/
def cFanDefs : List DagDef := [⟨"common_schedules", some "operations-analytics"⟩]

/-- A fan-out run that started inside the query window. -/
def cFanRun : RunRecord := ⟨"common_schedules", "r1", RunState.success, some 100, none⟩

/-- A task of `cFanRun` matching the fan-out naming convention but in an
unreported state (e.g. skipped). -/
def cOtherTask : TaskRecord :=
  ⟨"common_schedules", "r1", "run_dbt_task_for_alpha", RunState.other, some 120⟩

/-- Snapshot for the C5 counterexample: one fan-out run with exactly one
matching task, the task in an unreported state. -/
def cFanSnap : Snapshot := { runs := [cFanRun], tasks := [cOtherTask] }

/-- A fan-out run none of whose tasks match the naming convention. -/
def cBareRun : RunRecord := ⟨"common_schedules", "r9", RunState.failed, some 40, none⟩

/-- A task of `cBareRun` that does not match `run_dbt_task_for_%`. -/
def cBareTask : TaskRecord :=
  ⟨"common_schedules", "r9", "materialize_all", RunState.failed, some 50⟩

/-- Snapshot for the C5 witness: a fan-out run with no matching tasks. -/
def cBareSnap : Snapshot := { runs := [cBareRun], tasks := [cBareTask] }

/-- A run with no logical timestamp and an empty run id: full link
construction cannot succeed for it. -/
def cNoMetaRun : RunRecord := ⟨"etl_sales", "", RunState.success, some 10, none⟩

/-- A monitored fan-out run with a start time, the parent of
`cNoStartTask`. -/
def cParentRun : RunRecord := ⟨"common_schedules", "r2", RunState.success, some 100, none⟩

/-- A matching fan-out task with no start time of its own. -/
def cNoStartTask : TaskRecord :=
  ⟨"common_schedules", "r2", "run_dbt_task_for_beta", RunState.success, none⟩

/-- An ordinary monitored run inside the window, used as the C10
witness entry source. -/
def cWinRun : RunRecord := ⟨"etl_sales", "rw", RunState.success, some 1000, none⟩

/-- Snapshot containing only `cWinRun`. -/
def cWinSnap : Snapshot := { runs := [cWinRun], tasks := [] }

/-- One unfolding step of the backward scan loop. -/
theorem streakFrom_step (snap : Snapshot) (defs : List DagDef) (S : Int)
    (fuel off : Nat) :
    streakFrom snap defs S (fuel + 1) off =
      if dayHasFailure snap defs (dayWindowStart S off) then 0
      else 1 + streakFrom snap defs S fuel (off + 1) := rfl

/-- The backward scan counts at most one day per loop iteration, so it
never exceeds its fuel (365 in the source). -/
theorem streakFrom_le (snap : Snapshot) (defs : List DagDef) (S : Int) :
    ∀ fuel off, streakFrom snap defs S fuel off ≤ fuel := by
  intro fuel
  induction fuel with
  | zero => intro off; exact Nat.le_of_eq rfl
  | succ f ih =>
    intro off
    rw [streakFrom_step]
    split
    · exact Nat.zero_le _
    · have h := ih (off + 1)
      omega

/-- The exact value of the backward scan: if the first `k` offsets are
failure-free and offset `k` has a failure, and there is enough fuel to
reach it, the scan returns `k`. -/
theorem streakFrom_exact (snap : Snapshot) (defs : List DagDef) (S : Int) :
    ∀ (k fuel off : Nat), k < fuel →
      (∀ j, j < k → dayHasFailure snap defs (dayWindowStart S (off + j)) = false) →
      dayHasFailure snap defs (dayWindowStart S (off + k)) = true →
      streakFrom snap defs S fuel off = k := by
  intro k
  induction k with
  | zero =>
    intro fuel off hk _ hfail
    obtain ⟨f, rfl⟩ : ∃ f, fuel = f + 1 := ⟨fuel - 1, by omega⟩
    rw [streakFrom_step]
    have h0 : dayHasFailure snap defs (dayWindowStart S off) = true := by
      simpa using hfail
    rw [h0]
    simp
  | succ k ih =>
    intro fuel off hk hclean hfail
    obtain ⟨f, rfl⟩ : ∃ f, fuel = f + 1 := ⟨fuel - 1, by omega⟩
    rw [streakFrom_step]
    have h0 : dayHasFailure snap defs (dayWindowStart S off) = false := by
      have h := hclean 0 (Nat.succ_pos k)
      simpa using h
    rw [h0]
    simp only [Bool.false_eq_true, if_false]
    have hrec : streakFrom snap defs S f (off + 1) = k := by
      apply ih f (off + 1) (by omega)
      · intro j hj
        have h := hclean (j + 1) (by omega)
        have heq : off + (j + 1) = off + 1 + j := by omega
        rwa [heq] at h
      · show dayHasFailure snap defs (dayWindowStart S (off + 1 + k)) = true
        have heq : off + 1 + k = off + (k + 1) := by omega
        rw [heq]
        exact hfail
    omega

/-- When every reachable offset is failure-free, the scan exhausts its
fuel: the streak equals the 365-day cap. -/
theorem streakFrom_full (snap : Snapshot) (defs : List DagDef) (S : Int) :
    ∀ (fuel off : Nat),
      (∀ j, j < fuel → dayHasFailure snap defs (dayWindowStart S (off + j)) = false) →
      streakFrom snap defs S fuel off = fuel := by
  intro fuel
  induction fuel with
  | zero => intro off _; rfl
  | succ f ih =>
    intro off hclean
    rw [streakFrom_step]
    have h0 : dayHasFailure snap defs (dayWindowStart S off) = false := by
      have h := hclean 0 (Nat.succ_pos f)
      simpa using h
    rw [h0]
    simp only [Bool.false_eq_true, if_false]
    have hrec : streakFrom snap defs S f (off + 1) = f := by
      apply ih (off + 1)
      intro j hj
      have h := hclean (j + 1) (by omega)
      have heq : off + (j + 1) = off + 1 + j := by omega
      rwa [heq] at h
    omega

/-- Claim C1 (counterexample): with a monitored FAILED run on day D
(offset 2) and no failures on day D+1 (offset 1), an invocation on day
D+2 (k = 1) computes a streak of 2, not the claimed k = 1 — the scan
starts at the invocation day itself, so the current day is counted too. -/
theorem c1_streak_counterexample :
    dayHasFailure cStreakSnap cDefs (dayWindowStart 0 2) = true ∧
    dayHasFailure cStreakSnap cDefs (dayWindowStart 0 1) = false ∧
    dayHasFailure cStreakSnap cDefs (dayWindowStart 0 0) = false ∧
    streak_days cStreakSnap cDefs 0 = 2 ∧ (2 : Nat) ≠ 1 := by decide

/-- Claim C1 (amended): if day D has a monitored failure and the k
following days plus the invocation day itself are failure-free, the
streak computed on day D+k+1 is exactly k+1 — the scan includes the
current day — and the streak never exceeds the 365-day cap. -/
theorem c1_streak_monotone_amended (snap : Snapshot) (defs : List DagDef)
    (S : Int) (k : Nat) (hk : k + 1 ≤ 365)
    (hclean : ∀ j ∈ Finset.range (k + 1),
      dayHasFailure snap defs (dayWindowStart S j) = false)
    (hfail : dayHasFailure snap defs (dayWindowStart S (k + 1)) = true) :
    streak_days snap defs S = k + 1 ∧ streak_days snap defs S ≤ 365 := by
  constructor
  · rcases Nat.lt_or_ge (k + 1) 365 with hlt | hge
    · apply streakFrom_exact snap defs S (k + 1) 365 0 hlt
      · intro j hj
        have h := hclean j (Finset.mem_range.mpr hj)
        simpa using h
      · simpa using hfail
    · have h365 : k + 1 = 365 := by omega
      rw [h365]
      apply streakFrom_full snap defs S 365 0
      intro j hj
      have h := hclean j (Finset.mem_range.mpr (by omega))
      simpa using h
  · exact streakFrom_le snap defs S 365 0

/-- Claim C1 witness: the amended theorem evaluated on the concrete
streak scenario (k = 1 gives a streak of 2). -/
theorem c1_streak_monotone_witness :
    streak_days cStreakSnap cDefs 0 = 2 ∧ streak_days cStreakSnap cDefs 0 ≤ 365 :=
  c1_streak_monotone_amended cStreakSnap cDefs 0 1 (by decide) (by decide) (by decide)

/-- Claim C2: the sort places the entry with no start time FIRST, not
last: the `min_datetime` sentinel (1900-01-01) sorts before any real
timestamp under the ascending sort, contradicting the accompanying
source comment (`push them to the end`) and the claim. -/
theorem c2_sort_no_start_first :
    sortBucket [cEntryWithStart, cEntryNoStart] = [cEntryNoStart, cEntryWithStart] ∧
    cEntryNoStart.start_date = none ∧ cEntryWithStart.start_date = some 0 := by
  decide

/-- Claim C3 (counterexample): when the day-1 query raises after one
clean day, the scan result is the propagated error, not the partial
streak 1 the claim promises. -/
theorem c3_scan_error_counterexample :
    streakScanE cQuery 365 0 0 = Except.error () ∧
    streakScanE cQuery 365 0 0 ≠ Except.ok 1 := by
  constructor
  · rfl
  · intro h
    rw [show streakScanE cQuery 365 0 0 = Except.error () from rfl] at h
    exact Except.noConfusion h

/-- Claim C3 (amended): the streak loop has no exception handler, so a
day-query error after any number of clean days propagates out of the
scan — the invocation aborts and no partial streak is reported. -/
theorem c3_scan_error_propagates (q : Nat → Except Unit Bool)
    (fuel off acc k : Nat) (hk : k < fuel)
    (hclean : ∀ j, j < k → q (off + j) = Except.ok false)
    (herr : q (off + k) = Except.error ()) :
    streakScanE q fuel off acc = Except.error () := by
  induction k generalizing fuel off acc with
  | zero =>
    obtain ⟨f, rfl⟩ : ∃ f, fuel = f + 1 := ⟨fuel - 1, by omega⟩
    have h0 : q off = Except.error () := by simpa using herr
    simp only [streakScanE, h0]
  | succ k ih =>
    obtain ⟨f, rfl⟩ : ∃ f, fuel = f + 1 := ⟨fuel - 1, by omega⟩
    have h0 : q off = Except.ok false := by
      have h := hclean 0 (Nat.succ_pos k)
      simpa using h
    simp only [streakScanE, h0]
    apply ih f (off + 1) (acc + 1) (by omega)
    · intro j hj
      have h := hclean (j + 1) (by omega)
      have heq : off + (j + 1) = off + 1 + j := by omega
      rwa [heq] at h
    · show q (off + 1 + k) = Except.error ()
      have heq : off + 1 + k = off + (k + 1) := by omega
      rw [heq]
      exact herr

/-- Claim C3 witness: the amended propagation theorem evaluated on the
concrete failing oracle (one clean day, then an error). -/
theorem c3_scan_error_witness : streakScanE cQuery 365 0 0 = Except.error () :=
  c3_scan_error_propagates cQuery 365 0 0 1 (by omega)
    (fun j hj => by
      have hj0 : j = 0 := by omega
      rw [hj0]
      rfl)
    (by rfl)

/-- Claim C4: the URL actually produced for the example input.  CPython
`strftime('%z')` renders the offset as `+0000` with no colon, so the
colon substitution never touches the offset and the emitted fragment is
`execution_date=...%2B0000` — not the `...%2B00%3A00` stated by the claim
and by the function's own docstring.  The run-id fragment does match the
claim. -/
theorem c4_url_encoding_actual :
    format_airflow_dag_url (some "https://af") "mydag" (some cExampleTs)
        (some "scheduled__2025-11-18T19:00:00+00:00") =
      some ("https://af/dags/mydag/grid?execution_date=2025-11-18+19%3A00%3A00%2B0000"
            ++ "&tab=graph&dag_run_id=scheduled__2025-11-18T19%3A00%3A00%2B00%3A00") ∧
    encodeExecDate cExampleTs ≠ "2025-11-18+19%3A00%3A00%2B00%3A00" := by
  decide

/-- The three state filters of the fan-out loop partition exactly the
tasks in a reportable state: SUCCESS, FAILED and RUNNING are mutually
exclusive and jointly cover `reportable`. -/
theorem bucket_length_partition (ts : List TaskRecord) :
    (ts.filter (fun ti => ti.state == RunState.success)).length +
      (ts.filter (fun ti => ti.state == RunState.failed)).length +
      (ts.filter (fun ti => ti.state == RunState.running)).length =
    (ts.filter (fun ti => reportable ti.state)).length := by
  induction ts with
  | nil => rfl
  | cons t rest ih =>
    simp only [reportable] at ih ⊢
    simp only [List.filter_cons]
    cases h : t.state <;> simp [h] <;> omega

/-- Claim C5 (amended): a fan-out run with zero matching tasks
contributes zero entries to every bucket (it is silently dropped, never
a bare job entry); each matching task in a reportable state (SUCCESS,
FAILED or RUNNING) contributes exactly one entry, labelled
`<job_id> - <project>` with the `run_dbt_task_for_` text removed; tasks
in any other state contribute nothing. -/
theorem c5_fanout_amended (au : String) (snap : Snapshot) (r : RunRecord) :
    (tasksForRun snap r = [] → taskBuckets au snap r = ([], [], [])) ∧
    ((taskBuckets au snap r).1.length + (taskBuckets au snap r).2.1.length +
        (taskBuckets au snap r).2.2.length =
      ((tasksForRun snap r).filter (fun ti => reportable ti.state)).length) ∧
    (∀ ti ∈ tasksForRun snap r, reportable ti.state = true →
      (mkTaskInfo au r ti).dag_id =
        r.dag_id ++ " - " ++
          String.mk (replaceSub "run_dbt_task_for_".data [] ti.task_id.data) ∧
      (mkTaskInfo au r ti ∈ (taskBuckets au snap r).1 ∨
        mkTaskInfo au r ti ∈ (taskBuckets au snap r).2.1 ∨
        mkTaskInfo au r ti ∈ (taskBuckets au snap r).2.2)) := by
  refine ⟨?_, ?_, ?_⟩
  · intro h
    simp [taskBuckets, h]
  · simp only [taskBuckets, List.length_map]
    exact bucket_length_partition (tasksForRun snap r)
  · intro ti hti hrep
    refine ⟨rfl, ?_⟩
    simp only [taskBuckets, List.mem_map]
    cases hs : ti.state with
    | success =>
      exact Or.inl ⟨ti, List.mem_filter.mpr ⟨hti, by simp [hs]⟩, rfl⟩
    | failed =>
      exact Or.inr (Or.inl ⟨ti, List.mem_filter.mpr ⟨hti, by simp [hs]⟩, rfl⟩)
    | running =>
      exact Or.inr (Or.inr ⟨ti, List.mem_filter.mpr ⟨hti, by simp [hs]⟩, rfl⟩)
    | other =>
      rw [reportable, hs] at hrep
      simp at hrep

/-- Claim C5 (counterexample): the fan-out run has exactly one matching
TaskRecord, yet the digest contains zero entries in every bucket — a
matching task in a state other than SUCCESS/FAILED/RUNNING contributes
no entry, contradicting the claimed "each matching TaskRecord contributes
exactly one entry". -/
theorem c5_fanout_counterexample :
    tasksForRun cFanSnap cFanRun = [cOtherTask] ∧
    (generate_morning_digest_stats cFanSnap cFanDefs (some "https://af") 0 86399).success_dags = [] ∧
    (generate_morning_digest_stats cFanSnap cFanDefs (some "https://af") 0 86399).failed_dags = [] ∧
    (generate_morning_digest_stats cFanSnap cFanDefs (some "https://af") 0 86399).running_dags = [] := by
  decide

/-- Claim C5 witness: the amended theorem evaluated on a fan-out run with
zero matching tasks — it contributes zero entries (silent drop). -/
theorem c5_fanout_witness :
    taskBuckets "https://af" cBareSnap cBareRun = ([], [], []) :=
  (c5_fanout_amended "https://af" cBareSnap cBareRun).1 (by decide)

/-- The emoji choice implements the FAILED > RUNNING > SUCCESS priority
over arbitrary buckets. -/
theorem pickEmoji_spec (f r : List DagInfo) :
    (pickEmoji f r = attentionEmoji ↔ f ≠ []) ∧
    (pickEmoji f r = inProgressEmoji ↔ (f = [] ∧ r ≠ [])) ∧
    (pickEmoji f r = healthyEmoji ↔ (f = [] ∧ r = [])) := by
  cases f <;> cases r <;>
    simp [pickEmoji, attentionEmoji, inProgressEmoji, healthyEmoji]

/-- Claim C6: the digest's overall status is the attention marker exactly
when the failed bucket is non-empty, else the in-progress marker exactly
when the running bucket is non-empty, else the healthy marker — the
FAILED > RUNNING > SUCCESS priority. -/
theorem c6_overall_status_priority (snap : Snapshot) (defs : List DagDef)
    (v : Option String) (S now : Int) :
    ((generate_morning_digest_stats snap defs v S now).status_emoji = attentionEmoji ↔
      (generate_morning_digest_stats snap defs v S now).failed_dags ≠ []) ∧
    ((generate_morning_digest_stats snap defs v S now).status_emoji = inProgressEmoji ↔
      ((generate_morning_digest_stats snap defs v S now).failed_dags = [] ∧
        (generate_morning_digest_stats snap defs v S now).running_dags ≠ [])) ∧
    ((generate_morning_digest_stats snap defs v S now).status_emoji = healthyEmoji ↔
      ((generate_morning_digest_stats snap defs v S now).failed_dags = [] ∧
        (generate_morning_digest_stats snap defs v S now).running_dags = [])) :=
  pickEmoji_spec (generate_morning_digest_stats snap defs v S now).failed_dags
    (generate_morning_digest_stats snap defs v S now).running_dags

/-- Claim C7: the link builder returns `none` (it never raises) whenever
the base URL, the logical timestamp or the run id is absent (Python-falsy),
and when the full link construction for an entry comes back `None` while a
base URL exists, the entry receives the job-level fallback URL
`<base>/dags/<job_id>/grid`. -/
theorem c7_link_absent_none (au : Option String) (d : String)
    (ed : Option Timestamp) (rid : Option String) (base : String) (r : RunRecord)
    (habs : au = none ∨ au = some "" ∨ ed = none ∨ rid = none ∨ rid = some "")
    (hbase : base ≠ "") (hfull : fullLinkOrNone base r = none) :
    format_airflow_dag_url au d ed rid = none ∧
    (mkRunInfo base r).dag_url = some (base ++ "/dags/" ++ r.dag_id ++ "/grid") := by
  constructor
  · rcases habs with h | h | h | h | h <;> subst h <;>
      simp [format_airflow_dag_url, strFalsy]
  · show linkWithFallback base r = _
    unfold linkWithFallback
    rw [hfull]
    simp [hbase]

/-- Claim C7 witness: absent inputs give `none`, and the entry for a run
with incomplete link metadata carries the job-level fallback URL. -/
theorem c7_link_absent_witness :
    format_airflow_dag_url none "etl_sales" none none = none ∧
    (mkRunInfo "https://af" cNoMetaRun).dag_url =
      some ("https://af" ++ "/dags/" ++ cNoMetaRun.dag_id ++ "/grid") :=
  c7_link_absent_none none "etl_sales" none none "https://af" cNoMetaRun
    (Or.inl rfl) (by decide) (by decide)

/-- Claim C8: the main window fetch returns exactly the stored runs whose
start lies within `[window_start, window_end]`, or that are RUNNING with
a start no later than `window_end`, excluding dag ids containing `test`
or `example` and the digest job's own id. -/
theorem c8_window_fetch_exact (ws we : Int) (runs : List RunRecord) (r : RunRecord) :
    r ∈ fetchWindowRuns ws we runs ↔
      r ∈ runs ∧
      ((∃ t, r.start_date = some t ∧ ws ≤ t ∧ t ≤ we) ∨
        (r.state = RunState.running ∧ ∃ t, r.start_date = some t ∧ t ≤ we)) ∧
      likeMatch "%test%".data r.dag_id.data = false ∧
      likeMatch "%example%".data r.dag_id.data = false ∧
      r.dag_id ≠ "daily_digest" := by
  cases h : r.start_date with
  | none =>
    simp [fetchWindowRuns, List.mem_filter, runSelected, h]
  | some t =>
    simp only [fetchWindowRuns, List.mem_filter, runSelected, excludedDag, h,
      Bool.and_eq_true, Bool.or_eq_true, Bool.not_eq_true', decide_eq_true_eq,
      beq_iff_eq, Bool.or_eq_false_iff, decide_eq_false_iff_not,
      Option.some.injEq, exists_eq_left']
    tauto

/-- Claim C9 (counterexample): for a task with no start time, the entry's
sort key does fall back to the parent's start (100), but the displayed
start time stays the `'N/A'` sentinel (`none`) — it does not show the
parent's time, contradicting "both its sort position and its displayed
start time fall back". -/
theorem c9_display_counterexample :
    (mkTaskInfo "https://af" cParentRun cNoStartTask).start_date = some 100 ∧
    (mkTaskInfo "https://af" cParentRun cNoStartTask).start_time = none ∧
    cParentRun.start_date = some 100 ∧
    (mkTaskInfo "https://af" cParentRun cNoStartTask).start_time ≠ cParentRun.start_date := by
  refine ⟨rfl, rfl, rfl, ?_⟩
  intro h
  exact Option.noConfusion h

/-- Claim C9 (amended): when a fan-out task has no start time, only its
sort key falls back to the parent run's start
(`task_instance.start_date or dag_run.start_date`); the displayed start
time remains the not-available sentinel. -/
theorem c9_start_fallback_amended (au : String) (r : RunRecord) (ti : TaskRecord)
    (h : ti.start_date = none) :
    (mkTaskInfo au r ti).start_date = r.start_date ∧
    (mkTaskInfo au r ti).start_time = none := by
  constructor <;> simp [mkTaskInfo, h]

/-- Claim C9 witness: the amended fallback theorem evaluated on the
concrete no-start task. -/
theorem c9_start_fallback_witness :
    (mkTaskInfo "https://af" cParentRun cNoStartTask).start_date = cParentRun.start_date ∧
    (mkTaskInfo "https://af" cParentRun cNoStartTask).start_time = none :=
  c9_start_fallback_amended "https://af" cParentRun cNoStartTask rfl

/-- The resolved base URL is never the empty string: the hardcoded
default replaces a missing or empty `airflow_url` Variable. -/
theorem resolveAirflowUrl_ne_empty (v : Option String) : resolveAirflowUrl v ≠ "" := by
  cases v with
  | none =>
    intro h
    exact absurd h (by decide)
  | some u =>
    show (if u = "" then "https://your-airflow-instance.com" else u) ≠ ""
    split
    · intro h
      exact absurd h (by decide)
    · intro h
      simp_all

/-- With a non-empty base URL, the per-entry link is never absent: either
the full link was built, or the job-level fallback is substituted. -/
theorem linkWithFallback_ne_none (au : String) (r : RunRecord) (h : au ≠ "") :
    linkWithFallback au r ≠ none := by
  unfold linkWithFallback
  cases hf : fullLinkOrNone au r with
  | some u => simp
  | none => simp [h]

/-- Membership is preserved by stable insertion. -/
theorem mem_insertEntry (a x : DagInfo) (l : List DagInfo) :
    x ∈ insertEntry a l ↔ x = a ∨ x ∈ l := by
  induction l with
  | nil => simp [insertEntry]
  | cons b bs ih =>
    simp only [insertEntry]
    split
    · simp [List.mem_cons]
    · simp only [List.mem_cons, ih]
      tauto

/-- Sorting a bucket neither adds nor removes entries. -/
theorem mem_sortBucket (x : DagInfo) (l : List DagInfo) :
    x ∈ sortBucket l ↔ x ∈ l := by
  induction l with
  | nil => simp [sortBucket]
  | cons a rest ih =>
    simp [sortBucket, mem_insertEntry, ih]

/-- Claim C10: every entry of every bucket of the digest carries a
non-absent link — the base URL is replaced by the hardcoded default when
unconfigured, and the job-level `/dags/<id>/grid` fallback covers every
case where the full link construction returns `none`. -/
theorem c10_entry_link_present (snap : Snapshot) (defs : List DagDef)
    (v : Option String) (S now : Int) (e : DagInfo)
    (he : e ∈ (generate_morning_digest_stats snap defs v S now).success_dags ∨
      e ∈ (generate_morning_digest_stats snap defs v S now).failed_dags ∨
      e ∈ (generate_morning_digest_stats snap defs v S now).running_dags) :
    e.dag_url ≠ none := by
  have hau : resolveAirflowUrl v ≠ "" := resolveAirflowUrl_ne_empty v
  simp only [generate_morning_digest_stats, taskBuckets, mem_sortBucket,
    List.mem_append, List.mem_map, List.mem_flatMap, List.mem_filter] at he
  rcases he with he | he | he <;>
    rcases he with ⟨r', _, rfl⟩ | ⟨r', _, ti, _, rfl⟩ <;>
    exact linkWithFallback_ne_none (resolveAirflowUrl v) r' hau

/-- Claim C10 witness: the single success-bucket entry of the concrete
snapshot carries a link. -/
theorem c10_entry_link_witness :
    (mkRunInfo (resolveAirflowUrl (some "https://af")) cWinRun).dag_url ≠ none :=
  c10_entry_link_present cWinSnap cDefs (some "https://af") 0 86399
    (mkRunInfo (resolveAirflowUrl (some "https://af")) cWinRun)
    (Or.inl (by decide))
